import Mathlib

/-!
Verification of the image-ecolo image-optimization pipeline against its
natural-language specification.

The sources available are the UI components `ImageOptimizer.tsx` and
`DitheringControls.tsx`.  The handlers of `ImageOptimizer.tsx` (quality,
maxWidth and colorCount sliders, dithering and face-blur toggles, rotation,
crop completion, upload, and the maxWidth-clamp effect) are embedded as pure
functions on an explicit component state.  The parts of the repository that
the components call but whose sources are not included (the `useDebounce`
hook, `getCroppedImg`, the processing pipeline orchestrator and the
quantizer/ditherer) are modelled from the specification; each such
definition says so in its doc comment.
-/

namespace ImageEcolo

/-- Decoded image file handed to `processImage`: an identity plus pixel
dimensions.  The pixel contents live in the raster-buffer model below. -/
structure ImageFile where
  id : Nat
  width : Nat
  height : Nat
deriving DecidableEq

/-- Options object passed to `processImage`.  In the TypeScript source the
`rotation` key is present only in the object literal built by
`handleRotation`; an absent key is modelled as `none`. -/
structure ProcessingOptions where
  quality : Nat
  maxWidth : Nat
  applyStyle : Bool
  applyBlur : Bool
  colorCount : Nat
  rotation : Option Nat := none
deriving DecidableEq

/-- Whether a `processImage` call went through the `useDebounce` wrapper
(slider handlers) or was invoked directly (toggles, rotation, crop, upload). -/
inductive Timing where
  | immediate
  | debounced
deriving DecidableEq

/-- One `processImage` invocation requested by a handler. -/
structure Request where
  image : ImageFile
  opts : ProcessingOptions
  timing : Timing
deriving DecidableEq

/-- Component state of `ImageOptimizer`, with the initial values of the
`useState` hooks as defaults (quality 75, maxWidth 1920, applyStyle true,
colorCount 8, applyBlur false, rotation 0, maxWidthLimit 3840). -/
structure OptimizerState where
  quality : Nat := 75
  maxWidth : Nat := 1920
  applyStyle : Bool := true
  colorCount : Nat := 8
  applyBlur : Bool := false
  rotation : Nat := 0
  maxWidthLimit : Nat := 3840
  isCropping : Bool := false
  originalImage : Option ImageFile := none
deriving DecidableEq

/-- The parameter key overridden by `debouncedProcessWithParams`
(`params.name` is one of "quality", "maxWidth", "colorCount"). -/
inductive ParamName where
  | quality
  | maxWidth
  | colorCount
deriving DecidableEq

/-- Bounds of the quality slider in `ImageOptimizer.tsx` (min 0). -/
def qualitySliderMin : Nat := 0

/-- Bounds of the quality slider in `ImageOptimizer.tsx` (max 100). -/
def qualitySliderMax : Nat := 100

/-- Minimum of the maxWidth slider in `ImageOptimizer.tsx`. -/
def maxWidthSliderMin : Nat := 100

/-- Bounds of the colorCount slider in `ImageOptimizer.tsx` (min 2). -/
def colorCountSliderMin : Nat := 2

/-- Bounds of the colorCount slider in `ImageOptimizer.tsx` (max 32). -/
def colorCountSliderMax : Nat := 32

/-- Bounds of the color-count slider in `DitheringControls.tsx` (min 2). -/
def ditheringColorCountSliderMin : Nat := 2

/-- Bounds of the color-count slider in `DitheringControls.tsx` (max 32). -/
def ditheringColorCountSliderMax : Nat := 32

/-- Delay in milliseconds passed to `useDebounce` in `ImageOptimizer.tsx`. -/
def debounceDelay : Nat := 500

/-- Forwarding handler of `DitheringControls.tsx`: the slider change handler
passes the numeric value to the `onDitheringColorCountChange` callback. -/
def handleDitheringColorCountChange (onDitheringColorCountChange : Nat → α)
    (newValue : Nat) : α :=
  onDitheringColorCountChange newValue

/-- Options object built by `debouncedProcessWithParams` before the override:
the closure state spread, with no `rotation` key. -/
def optionsFromState (s : OptimizerState) : ProcessingOptions :=
  { quality := s.quality, maxWidth := s.maxWidth, applyStyle := s.applyStyle,
    applyBlur := s.applyBlur, colorCount := s.colorCount }

/-- Computed-key override `[params.name]: params.value` in
`debouncedProcessWithParams`. -/
def overrideOption (o : ProcessingOptions) : ParamName → Nat → ProcessingOptions
  | ParamName.quality, v => { o with quality := v }
  | ParamName.maxWidth, v => { o with maxWidth := v }
  | ParamName.colorCount, v => { o with colorCount := v }

/-- The debounced processing callback of `ImageOptimizer.tsx`: if no image is
loaded it does nothing, otherwise it requests `processImage` on the original
image with the closure state overridden at the changed key. -/
def debouncedProcessWithParams (s : OptimizerState) (name : ParamName)
    (value : Nat) : List Request :=
  match s.originalImage with
  | none => []
  | some img =>
      [{ image := img, opts := overrideOption (optionsFromState s) name value,
         timing := Timing.debounced }]

/-- Quality slider handler: stores the value and schedules a debounced run. -/
def handleQualityChange (s : OptimizerState) (newValue : Nat) :
    OptimizerState × List Request :=
  ({ s with quality := newValue },
   debouncedProcessWithParams s ParamName.quality newValue)

/-- MaxWidth slider handler: clamps the value to `maxWidthLimit`, stores it
and schedules a debounced run. -/
def handleMaxWidthChange (s : OptimizerState) (newValue : Nat) :
    OptimizerState × List Request :=
  let value := min newValue s.maxWidthLimit
  ({ s with maxWidth := value },
   debouncedProcessWithParams s ParamName.maxWidth value)

/-- ColorCount slider handler: stores the value and schedules a debounced
run. -/
def handleColorCountChange (s : OptimizerState) (newValue : Nat) :
    OptimizerState × List Request :=
  ({ s with colorCount := newValue },
   debouncedProcessWithParams s ParamName.colorCount newValue)

/-- Dithering toggle handler: stores the flag and, if an image is loaded,
immediately requests processing with the new flag (no `rotation` key). -/
def handleStyleChange (s : OptimizerState) (value : Bool) :
    OptimizerState × List Request :=
  ({ s with applyStyle := value },
   match s.originalImage with
   | none => []
   | some img =>
       [{ image := img,
          opts := { quality := s.quality, maxWidth := s.maxWidth,
                    applyStyle := value, applyBlur := s.applyBlur,
                    colorCount := s.colorCount },
          timing := Timing.immediate }])

/-- Face-blur toggle handler: stores the flag and, if an image is loaded,
immediately requests processing with the new flag (no `rotation` key). -/
def handleBlurChange (s : OptimizerState) (value : Bool) :
    OptimizerState × List Request :=
  ({ s with applyBlur := value },
   match s.originalImage with
   | none => []
   | some img =>
       [{ image := img,
          opts := { quality := s.quality, maxWidth := s.maxWidth,
                    applyStyle := s.applyStyle, applyBlur := value,
                    colorCount := s.colorCount },
          timing := Timing.immediate }])

/-- Rotation update in `handleRotation`: `(rotation + 90) % 360`. -/
def nextRotation (r : Nat) : Nat := (r + 90) % 360

/-- Rotation button handler: advances the rotation state by 90 degrees and
immediately requests processing with an explicit `rotation` key. -/
def handleRotation (s : OptimizerState) : OptimizerState × List Request :=
  match s.originalImage with
  | none => (s, [])
  | some img =>
      let newRotation := nextRotation s.rotation
      ({ s with rotation := newRotation },
       [{ image := img,
          opts := { quality := s.quality, maxWidth := s.maxWidth,
                    applyStyle := s.applyStyle, applyBlur := s.applyBlur,
                    colorCount := s.colorCount, rotation := some newRotation },
          timing := Timing.immediate }])

/-- Typed pipeline errors of the specification's error taxonomy. -/
inductive PipelineError where
  | DecodeFailure
  | InvalidRegion
  | InvalidOptions
  | DetectorUnavailable
  | EncodeFailure
deriving DecidableEq

/-- Pixel-space crop rectangle. -/
structure CropRect where
  x : Int
  y : Int
  w : Int
  h : Int
deriving DecidableEq

/-- Modelled from the spec: `getCroppedImg` of `src/utils/imageUtils` is not
among the included sources.  Per the specification a crop rectangle must
have positive width and height and lie inside the image bounds; an
out-of-range crop fails with `InvalidRegion`, and on success a new image
file with the crop's dimensions is produced. -/
def getCroppedImg (image : ImageFile) (crop : CropRect) (quality : Nat) :
    Except PipelineError ImageFile :=
  if crop.w ≤ 0 ∨ crop.h ≤ 0 ∨ crop.x < 0 ∨ crop.y < 0 ∨
      (image.width : Int) < crop.x + crop.w ∨
      (image.height : Int) < crop.y + crop.h then
    Except.error PipelineError.InvalidRegion
  else
    Except.ok { id := image.id + quality + 1, width := crop.w.toNat,
                height := crop.h.toNat }

/-- Crop completion handler: guarded by nonzero crop width/height, it crops
the displayed image and, on success, immediately requests processing of the
cropped file; a cropping error is caught and nothing is requested.  The
`originalImage` state is not touched. -/
def handleCropComplete (s : OptimizerState) (displayed : ImageFile)
    (crop : CropRect) : OptimizerState × List Request :=
  if crop.w = 0 ∨ crop.h = 0 then (s, [])
  else
    match getCroppedImg displayed crop s.quality with
    | Except.error _ => (s, [])
    | Except.ok croppedFile =>
        ({ s with isCropping := false },
         [{ image := croppedFile, opts := optionsFromState s,
            timing := Timing.immediate }])

/-- Upload handler: stores the file as the original image and immediately
requests processing with the current option state (no `rotation` key). -/
def handleImageUpload (s : OptimizerState) (file : ImageFile) :
    OptimizerState × List Request :=
  ({ s with originalImage := some file },
   [{ image := file, opts := optionsFromState s, timing := Timing.immediate }])

/-- Effect of `ImageOptimizer.tsx` reacting to `originalStats.width`: when a
nonzero width is known, clamp `maxWidth` down to it and set the slider
limit. -/
def maxWidthClampEffect (s : OptimizerState) (width : Nat) : OptimizerState :=
  if width ≠ 0 then
    { s with maxWidth := if s.maxWidth > width then width else s.maxWidth,
             maxWidthLimit := width }
  else s

/-- Externally triggered events of the component. -/
inductive UIEvent where
  | qualityChange (v : Nat)
  | maxWidthChange (v : Nat)
  | colorCountChange (v : Nat)
  | styleToggle (b : Bool)
  | blurToggle (b : Bool)
  | rotate
  | cropComplete (displayed : ImageFile) (crop : CropRect)
  | upload (f : ImageFile)
  | statsArrive (w : Nat)
deriving DecidableEq

/-- Dispatch of a UI event to the corresponding handler of
`ImageOptimizer.tsx`, returning the new state and the `processImage`
requests the handler makes. -/
def step (s : OptimizerState) : UIEvent → OptimizerState × List Request
  | UIEvent.qualityChange v => handleQualityChange s v
  | UIEvent.maxWidthChange v => handleMaxWidthChange s v
  | UIEvent.colorCountChange v => handleColorCountChange s v
  | UIEvent.styleToggle b => handleStyleChange s b
  | UIEvent.blurToggle b => handleBlurChange s b
  | UIEvent.rotate => handleRotation s
  | UIEvent.cropComplete displayed crop => handleCropComplete s displayed crop
  | UIEvent.upload f => handleImageUpload s f
  | UIEvent.statsArrive w => (maxWidthClampEffect s w, [])

/-- Runs a sequence of UI events from a state, collecting all requests. -/
def runEvents (s : OptimizerState) : List UIEvent → OptimizerState × List Request
  | [] => (s, [])
  | e :: es =>
      let p := step s e
      let q := runEvents p.1 es
      (q.1, p.2 ++ q.2)

/-- Result of one pipeline run, carrying the options it was computed from. -/
structure PipelineResult where
  opts : ProcessingOptions
deriving DecidableEq

/-- Modelled from the spec: the outputs of the `PipelineOrchestrator`
(implemented by the `useImageProcessor` hook, not among the included
sources) that the caller can observe: progress events tagged with the
request sequence number, and delivered results. -/
inductive Deliverable where
  | progressEvt (requestSeq : Nat) (value : Nat)
  | resultEvt (r : PipelineResult)
deriving DecidableEq

/-- Modelled from the spec: orchestrator state.  Each invocation is tagged
with a monotonically increasing sequence number; `latest` holds the number
of the most recent request, and `pending` the in-flight requests. -/
structure OrchState where
  nextSeq : Nat := 0
  latest : Option Nat := none
  pending : List (Nat × ProcessingOptions) := []

/-- Modelled from the spec: orchestrator events — a new invocation, a
progress report from an in-flight run, or the completion of a run. -/
inductive OrchEvent where
  | issue (opts : ProcessingOptions)
  | progress (requestSeq : Nat) (value : Nat)
  | complete (requestSeq : Nat)

/-- Modelled from the spec: one orchestrator transition.  A new invocation
becomes the latest request; progress events and results of a request that
is no longer the latest are discarded and never reach the caller; the
completion of the latest request delivers its result. -/
def orchStep (s : OrchState) : OrchEvent → OrchState × List Deliverable
  | OrchEvent.issue opts =>
      ({ nextSeq := s.nextSeq + 1, latest := some s.nextSeq,
         pending := s.pending ++ [(s.nextSeq, opts)] }, [])
  | OrchEvent.progress q v =>
      if s.latest = some q then (s, [Deliverable.progressEvt q v]) else (s, [])
  | OrchEvent.complete q =>
      match s.pending.lookup q with
      | none => (s, [])
      | some opts =>
          let s' := { s with pending := s.pending.filter (fun p => p.1 != q) }
          if s.latest = some q then (s', [Deliverable.resultEvt ⟨opts⟩])
          else (s', [])

/-- Modelled from the spec: orchestrator run over an event trace. -/
def orchRun (s : OrchState) : List OrchEvent → OrchState × List Deliverable
  | [] => (s, [])
  | e :: es =>
      let p := orchStep s e
      let q := orchRun p.1 es
      (q.1, p.2 ++ q.2)

/-- Modelled from the spec: the `useDebounce` hook (src/hooks/useDebounce is
not among the included sources) delays each call by `delay` milliseconds
and cancels the pending call when a new one arrives, so a call fires only
if no further call occurs within `delay` of it.  Input: timestamped calls
in chronological order; output: the calls that fire. -/
def debounceFires (delay : Nat) : List (Nat × α) → List (Nat × α)
  | [] => []
  | [e] => [e]
  | e1 :: e2 :: rest =>
      if e2.1 < e1.1 + delay then debounceFires delay (e2 :: rest)
      else e1 :: debounceFires delay (e2 :: rest)

/-- Holds when every call of the list is followed by the next one within
`delay` milliseconds: the whole list lies in one quiescence window. -/
def withinWindow (delay : Nat) : List (Nat × α) → Bool
  | e1 :: e2 :: rest => decide (e2.1 < e1.1 + delay) && withinWindow delay (e2 :: rest)
  | _ => true

/-- Last element of a list of calls, if any. -/
def lastCall : List α → Option α
  | [] => none
  | [e] => some e
  | _ :: e :: rest => lastCall (e :: rest)

/-- Classifies the UI events whose handlers go through
`debouncedProcessWithParams` (the three sliders). -/
def isSliderEvent : UIEvent → Bool
  | UIEvent.qualityChange _ => true
  | UIEvent.maxWidthChange _ => true
  | UIEvent.colorCountChange _ => true
  | _ => false

/-- Color value of one pixel (red, green, blue), each channel 0–255. -/
structure RGB where
  r : Nat
  g : Nat
  b : Nat
deriving DecidableEq

/-- Pixel with color channels and an alpha channel. -/
structure Pixel where
  r : Nat
  g : Nat
  b : Nat
  a : Nat
deriving DecidableEq

/-- Modelled from the spec: a decoded raster, addressed by integer
coordinates, used by the `GeometricTransformer` model (the transformer of
the pipeline is not among the included sources). -/
structure FnImage where
  width : Nat
  height : Nat
  pix : Int → Int → Pixel

/-- Modelled from the spec: one 90-degree rotation step of the
`GeometricTransformer`; width and height swap. -/
def rotate90 (img : FnImage) : FnImage :=
  { width := img.height, height := img.width,
    pix := fun x y => img.pix y ((img.width : Int) - 1 - x) }

/-- Signed quantization error on the three color channels. -/
structure ErrRGB where
  r : Int
  g : Int
  b : Int
deriving DecidableEq

/-- Zero error. -/
def zeroErr : ErrRGB := ⟨0, 0, 0⟩

/-- Componentwise sum of two errors. -/
def addE (x y : ErrRGB) : ErrRGB := ⟨x.r + y.r, x.g + y.g, x.b + y.b⟩

/-- Floyd–Steinberg weight `k/16` applied to an error. -/
def scaleErr (k : Nat) (e : ErrRGB) : ErrRGB :=
  ⟨(k : Int) * e.r / 16, (k : Int) * e.g / 16, (k : Int) * e.b / 16⟩

/-- Clamps an integer channel value into 0–255. -/
def clamp255 (x : Int) : Nat := (min 255 (max 0 x)).toNat

/-- Adds a diffusion error onto a color, clamping each channel. -/
def addErr (c : RGB) (e : ErrRGB) : RGB :=
  ⟨clamp255 ((c.r : Int) + e.r), clamp255 ((c.g : Int) + e.g),
   clamp255 ((c.b : Int) + e.b)⟩

/-- Quantization error between a wanted color and the palette color used. -/
def errOf (c q : RGB) : ErrRGB :=
  ⟨(c.r : Int) - q.r, (c.g : Int) - q.g, (c.b : Int) - q.b⟩

/-- Squared distance between two colors. -/
def colorDistSq (c d : RGB) : Int :=
  ((c.r : Int) - d.r) ^ 2 + ((c.g : Int) - d.g) ^ 2 + ((c.b : Int) - d.b) ^ 2

/-- Nearest palette color to a wanted color; the color itself when the
palette is empty. -/
def nearestColor (pal : List RGB) (c : RGB) : RGB :=
  match pal with
  | [] => c
  | p :: ps =>
      ps.foldl (fun best q =>
        if colorDistSq q c < colorDistSq best c then q else best) p

/-- Adds incoming per-pixel errors onto a row of colors; pixels beyond the
error list are unchanged. -/
def addErrs : List RGB → List ErrRGB → List RGB
  | [], _ => []
  | c :: cs, [] => c :: addErrs cs []
  | c :: cs, e :: es => addErr c e :: addErrs cs es

/-- Splits a list into consecutive chunks of the given size (all of the
list as one chunk when the size is zero). -/
def chunkRegions (size : Nat) (l : List α) : List (List α) :=
  match l with
  | [] => []
  | x :: xs =>
      if _hs : size = 0 then [x :: xs]
      else (x :: xs).take size :: chunkRegions size ((x :: xs).drop size)
termination_by l.length
decreasing_by
  simp only [List.length_drop, List.length_cons]
  omega

/-- Mean color of a region (black for an empty region). -/
def averageColor (cs : List RGB) : RGB :=
  match cs with
  | [] => ⟨0, 0, 0⟩
  | _ =>
      ⟨(cs.map RGB.r).sum / cs.length, (cs.map RGB.g).sum / cs.length,
       (cs.map RGB.b).sum / cs.length⟩

/-- Modelled from the spec: palette construction of the quantizer
(`method: 2` of the library the repository uses): the image is partitioned
into localized regions, each region contributes its representative (mean)
color, and at most `colorCount` distinct colors are kept. -/
def buildPalette (cs : List RGB) (colorCount : Nat) : List RGB :=
  let regionSize := max 1 ((cs.length + colorCount - 1) / max 1 colorCount)
  (((chunkRegions regionSize cs).map averageColor).dedup).take colorCount

/-- Modelled from the spec: in-row Floyd–Steinberg pass.  Each pixel gets
the 7/16 error carried from its left neighbour, is replaced by the nearest
palette color, and passes its own full error on. -/
def fsRowGo (pal : List RGB) : ErrRGB → List RGB → List RGB × List ErrRGB
  | _, [] => ([], [])
  | carry, c :: cs =>
      let cp := addErr c carry
      let q := nearestColor pal cp
      let e := errOf cp q
      let rest := fsRowGo pal (scaleErr 7 e) cs
      (q :: rest.1, e :: rest.2)

/-- Three-way zip, truncating to the shortest list. -/
def zipWith3 (f : α → β → γ → δ) : List α → List β → List γ → List δ
  | a :: as, b :: bs, c :: cs => f a b c :: zipWith3 f as bs cs
  | _, _, _ => []

/-- Modelled from the spec: downward Floyd–Steinberg diffusion.  The pixel
below position `j` receives 3/16 of the error of pixel `j+1`, 5/16 of the
error of pixel `j`, and 1/16 of the error of pixel `j-1` (scan-direction
mirror handled by the serpentine driver). -/
def diffuseDown (es : List ErrRGB) : List ErrRGB :=
  zipWith3 (fun enext ecur eprev =>
      addE (scaleErr 3 enext) (addE (scaleErr 5 ecur) (scaleErr 1 eprev)))
    (es.drop 1 ++ [zeroErr]) es (zeroErr :: es)

/-- Modelled from the spec: one row of the dithering pass: incoming errors
from the row above are applied, the in-row pass runs, and the errors for
the row below are computed. -/
def fsRow (pal : List RGB) (row : List RGB) (inc : List ErrRGB) :
    List RGB × List ErrRGB :=
  let p := fsRowGo pal zeroErr (addErrs row inc)
  (p.1, diffuseDown p.2)

/-- Modelled from the spec: serpentine Floyd–Steinberg over the rows of the
image — rows are processed alternately left-to-right and right-to-left;
rows and incoming errors are kept in canonical (left-to-right) order. -/
def fsRows (pal : List RGB) :
    List (List RGB) → List ErrRGB → Bool → List (List RGB)
  | [], _, _ => []
  | row :: rest, inc, true =>
      let p := fsRow pal row inc
      p.1 :: fsRows pal rest p.2 false
  | row :: rest, inc, false =>
      let p := fsRow pal row.reverse inc.reverse
      p.1.reverse :: fsRows pal rest p.2.reverse true

/-- Color channels of a pixel. -/
def pixelRGB (p : Pixel) : RGB := ⟨p.r, p.g, p.b⟩

/-- Rebuilds a pixel from a dithered color and a saved alpha value. -/
def withAlpha (c : RGB) (a : Nat) : Pixel := ⟨c.r, c.g, c.b, a⟩

/-- Modelled from the spec: the quantize/dither stage.  The per-pixel alpha
channel is extracted and saved aside before quantization, the palette is
built from the color channels, Floyd–Steinberg error diffusion runs in
serpentine order over the color channels only, and the saved alpha values
are reapplied unmodified to the output.  The input raster is given as its
rows of pixels; the result is the dithered raster and the palette. -/
def quantize (buf : List (List Pixel)) (colorCount : Nat) :
    List (List Pixel) × List RGB :=
  let alphas := buf.map (List.map Pixel.a)
  let rgbs := buf.map (List.map pixelRGB)
  let pal := buildPalette rgbs.flatten colorCount
  let dithered := fsRows pal rgbs [] true
  (List.zipWith (List.zipWith withAlpha) dithered alphas, pal)

/-- Per-pixel alpha values of a raster, row by row. -/
def alphaMap (buf : List (List Pixel)) : List (List Nat) :=
  buf.map (List.map Pixel.a)

/-- Both runs of `quantize` on the same input, for the determinism claim. -/
def quantizeRunTwice (buf : List (List Pixel)) (colorCount : Nat) :
    (List (List Pixel) × List RGB) × (List (List Pixel) × List RGB) :=
  (quantize buf colorCount, quantize buf colorCount)

theorem addErrs_length (cs : List RGB) (es : List ErrRGB) :
    (addErrs cs es).length = cs.length := by
  induction cs generalizing es with
  | nil => simp [addErrs]
  | cons c cs ih => cases es <;> simp [addErrs, ih]

theorem fsRowGo_fst_length (pal : List RGB) (cs : List RGB) (carry : ErrRGB) :
    (fsRowGo pal carry cs).1.length = cs.length := by
  induction cs generalizing carry with
  | nil => simp [fsRowGo]
  | cons c cs ih => simp [fsRowGo, ih]

theorem fsRow_fst_length (pal : List RGB) (row : List RGB)
    (inc : List ErrRGB) : (fsRow pal row inc).1.length = row.length := by
  simp [fsRow, fsRowGo_fst_length, addErrs_length]

theorem fsRows_lengths (pal : List RGB) (rows : List (List RGB))
    (inc : List ErrRGB) (ltr : Bool) :
    (fsRows pal rows inc ltr).map List.length = rows.map List.length := by
  induction rows generalizing inc ltr with
  | nil => cases ltr <;> simp [fsRows]
  | cons row rest ih =>
      cases ltr <;> simp [fsRows, fsRow_fst_length, ih]

theorem zipWithAlpha_alpha (d : List RGB) (al : List Nat)
    (h : d.length = al.length) :
    (List.zipWith withAlpha d al).map Pixel.a = al := by
  induction d generalizing al with
  | nil =>
      cases al with
      | nil => simp
      | cons a as => simp at h
  | cons c cs ih =>
      cases al with
      | nil => simp at h
      | cons a as =>
          simp only [List.length_cons, Nat.add_right_cancel_iff] at h
          simp [withAlpha, ih as h]

theorem zipWithAlpha2D_alpha (d : List (List RGB)) (al : List (List Nat))
    (h : d.map List.length = al.map List.length) :
    (List.zipWith (List.zipWith withAlpha) d al).map (List.map Pixel.a)
      = al := by
  induction d generalizing al with
  | nil =>
      cases al with
      | nil => simp
      | cons a as => simp at h
  | cons r rs ih =>
      cases al with
      | nil => simp at h
      | cons a as =>
          simp only [List.map_cons, List.cons.injEq] at h
          simp [zipWithAlpha_alpha r a h.1, ih as h.2]

/-- C2: the quantize/dither stage leaves every pixel of every input buffer
with exactly its pre-quantization alpha value, for every `colorCount`:
quantization and error diffusion run on the color channels only, and the
saved alpha map is reapplied unmodified. -/
theorem quantize_preserves_alpha (buf : List (List Pixel)) (colorCount : Nat) :
    alphaMap (quantize buf colorCount).1 = alphaMap buf := by
  unfold quantize alphaMap
  apply zipWithAlpha2D_alpha
  rw [fsRows_lengths]
  simp [List.map_map, Function.comp_def]

/-- C3: `quantize` is deterministic — for a fixed input buffer and a
`colorCount` in the valid range 2–32, two runs produce bit-for-bit
identical palettes and bit-for-bit identical dithered output buffers
(the stage is a pure function of its two inputs). -/
theorem quantize_deterministic (buf : List (List Pixel)) (colorCount : Nat)
    (h2 : 2 ≤ colorCount) (h32 : colorCount ≤ 32) :
    (quantizeRunTwice buf colorCount).1.2
        = (quantizeRunTwice buf colorCount).2.2 ∧
    (quantizeRunTwice buf colorCount).1.1
        = (quantizeRunTwice buf colorCount).2.1 :=
  ⟨rfl, rfl⟩

/-- C3 witness: the determinism theorem applied to a concrete two-pixel
buffer and `colorCount` 8. -/
theorem quantize_deterministic_witness :
    2 ≤ 8 ∧ 8 ≤ 32 ∧
    ((quantizeRunTwice [[⟨10, 20, 30, 200⟩, ⟨250, 5, 0, 9⟩]] 8).1.2
        = (quantizeRunTwice [[⟨10, 20, 30, 200⟩, ⟨250, 5, 0, 9⟩]] 8).2.2 ∧
     (quantizeRunTwice [[⟨10, 20, 30, 200⟩, ⟨250, 5, 0, 9⟩]] 8).1.1
        = (quantizeRunTwice [[⟨10, 20, 30, 200⟩, ⟨250, 5, 0, 9⟩]] 8).2.1) :=
  ⟨by norm_num, by norm_num,
   quantize_deterministic [[⟨10, 20, 30, 200⟩, ⟨250, 5, 0, 9⟩]] 8
     (by norm_num) (by norm_num)⟩

/-- Classifies the events that keep the current source image: slider moves,
toggles and rotation.  Upload and crop completion hand a different file to
the pipeline, and the stats effect is the synchronization point itself. -/
def sameSourceEvent : UIEvent → Bool
  | UIEvent.upload _ => false
  | UIEvent.cropComplete _ _ => false
  | UIEvent.statsArrive _ => false
  | _ => true

/-- Slider events carry values inside the bounds of the rendered sliders
(quality 0–100, maxWidth at least 100, colorCount 2–32). -/
def eventRespectsSliderBounds : UIEvent → Bool
  | UIEvent.qualityChange v =>
      decide (qualitySliderMin ≤ v ∧ v ≤ qualitySliderMax)
  | UIEvent.maxWidthChange v => decide (maxWidthSliderMin ≤ v)
  | UIEvent.colorCountChange v =>
      decide (colorCountSliderMin ≤ v ∧ v ≤ colorCountSliderMax)
  | _ => true

/-- State property established by the maxWidth-clamp effect for a source
image of width `w`: the slider limit equals `w`, the stored `maxWidth` is
positive and at most `w`, and the loaded image (if any) has width `w`. -/
def MaxWidthInv (w : Nat) (s : OptimizerState) : Prop :=
  s.maxWidthLimit = w ∧ s.maxWidth ≤ w ∧ 0 < s.maxWidth ∧
  s.originalImage.all (fun img => img.width == w) = true

theorem step_maxWidthInv (w : Nat) (s : OptimizerState) (e : UIEvent)
    (hInv : MaxWidthInv w s) (hs : sameSourceEvent e = true)
    (hb : eventRespectsSliderBounds e = true) :
    MaxWidthInv w (step s e).1 ∧
    ∀ r ∈ (step s e).2,
      0 < r.opts.maxWidth ∧ r.opts.maxWidth ≤ w ∧ r.image.width = w := by
  obtain ⟨hLim, hLe, hPos, hImg⟩ := hInv
  have hw : 0 < w := lt_of_lt_of_le hPos hLe
  cases e with
  | qualityChange v =>
      refine ⟨⟨hLim, hLe, hPos, hImg⟩, ?_⟩
      intro r hr
      simp only [step, handleQualityChange] at hr
      cases h : s.originalImage with
      | none => simp [debouncedProcessWithParams, h] at hr
      | some img =>
          have himg : img.width = w := by
            rw [h] at hImg
            simpa [Option.all] using hImg
          simp [debouncedProcessWithParams, h, overrideOption,
            optionsFromState] at hr
          subst hr
          exact ⟨hPos, hLe, himg⟩
  | maxWidthChange v =>
      have hv : maxWidthSliderMin ≤ v := by
        simpa [eventRespectsSliderBounds] using hb
      have hminLe : min v s.maxWidthLimit ≤ w := by
        rw [hLim]; exact min_le_right v w
      have hminPos : 0 < min v s.maxWidthLimit := by
        rw [hLim]
        have : maxWidthSliderMin = 100 := rfl
        omega
      constructor
      · exact ⟨hLim, hminLe, hminPos, hImg⟩
      · intro r hr
        simp only [step, handleMaxWidthChange] at hr
        cases h : s.originalImage with
        | none => simp [debouncedProcessWithParams, h] at hr
        | some img =>
            have himg : img.width = w := by
              rw [h] at hImg
              simpa [Option.all] using hImg
            simp [debouncedProcessWithParams, h, overrideOption,
              optionsFromState] at hr
            subst hr
            exact ⟨hminPos, hminLe, himg⟩
  | colorCountChange v =>
      refine ⟨⟨hLim, hLe, hPos, hImg⟩, ?_⟩
      intro r hr
      simp only [step, handleColorCountChange] at hr
      cases h : s.originalImage with
      | none => simp [debouncedProcessWithParams, h] at hr
      | some img =>
          have himg : img.width = w := by
            rw [h] at hImg
            simpa [Option.all] using hImg
          simp [debouncedProcessWithParams, h, overrideOption,
            optionsFromState] at hr
          subst hr
          exact ⟨hPos, hLe, himg⟩
  | styleToggle b =>
      refine ⟨⟨hLim, hLe, hPos, hImg⟩, ?_⟩
      intro r hr
      simp only [step, handleStyleChange] at hr
      cases h : s.originalImage with
      | none => simp [h] at hr
      | some img =>
          have himg : img.width = w := by
            rw [h] at hImg
            simpa [Option.all] using hImg
          simp [h] at hr
          subst hr
          exact ⟨hPos, hLe, himg⟩
  | blurToggle b =>
      refine ⟨⟨hLim, hLe, hPos, hImg⟩, ?_⟩
      intro r hr
      simp only [step, handleBlurChange] at hr
      cases h : s.originalImage with
      | none => simp [h] at hr
      | some img =>
          have himg : img.width = w := by
            rw [h] at hImg
            simpa [Option.all] using hImg
          simp [h] at hr
          subst hr
          exact ⟨hPos, hLe, himg⟩
  | rotate =>
      cases h : s.originalImage with
      | none =>
          constructor
          · simp only [step, handleRotation, h]
            exact ⟨hLim, hLe, hPos, hImg⟩
          · intro r hr
            simp [step, handleRotation, h] at hr
      | some img =>
          have himg : img.width = w := by
            rw [h] at hImg
            simpa [Option.all] using hImg
          constructor
          · simp only [step, handleRotation, h]
            refine ⟨hLim, hLe, hPos, ?_⟩
            simp [Option.all, himg]
          · intro r hr
            simp [step, handleRotation, h] at hr
            subst hr
            exact ⟨hPos, hLe, himg⟩
  | cropComplete displayed crop => simp [sameSourceEvent] at hs
  | upload f => simp [sameSourceEvent] at hs
  | statsArrive v => simp [sameSourceEvent] at hs

theorem runEvents_maxWidthInv (w : Nat) (s : OptimizerState)
    (hInv : MaxWidthInv w s) (es : List UIEvent)
    (hes : ∀ e ∈ es,
        sameSourceEvent e = true ∧ eventRespectsSliderBounds e = true) :
    MaxWidthInv w (runEvents s es).1 ∧
    ∀ r ∈ (runEvents s es).2,
      0 < r.opts.maxWidth ∧ r.opts.maxWidth ≤ w ∧ r.image.width = w := by
  induction es generalizing s with
  | nil => exact ⟨hInv, by simp [runEvents]⟩
  | cons e es ih =>
      have he := hes e (by simp)
      have hstep := step_maxWidthInv w s e hInv he.1 he.2
      have hrest := ih (step s e).1 hstep.1
        (fun e' he' => hes e' (List.mem_cons_of_mem e he'))
      constructor
      · exact hrest.1
      · intro r hr
        simp only [runEvents, List.mem_append] at hr
        cases hr with
        | inl h => exact hstep.2 r h
        | inr h => exact hrest.2 r h

/-- Classifies the events that stay within the current source epoch: every
event except an upload (which starts a new source) and the stats effect
(which is the synchronization point itself).  Crop completion belongs to
the epoch: it hands a new file to the pipeline but leaves the stored
source and clamp state untouched. -/
def sourceEpochEvent : UIEvent → Bool
  | UIEvent.upload _ => false
  | UIEvent.statsArrive _ => false
  | _ => true

theorem step_maxWidthBound (w : Nat) (s : OptimizerState) (e : UIEvent)
    (hInv : MaxWidthInv w s) (hs : sourceEpochEvent e = true)
    (hb : eventRespectsSliderBounds e = true) :
    MaxWidthInv w (step s e).1 ∧
    ∀ r ∈ (step s e).2, 0 < r.opts.maxWidth ∧ r.opts.maxWidth ≤ w := by
  cases he : sameSourceEvent e with
  | true =>
      have h := step_maxWidthInv w s e hInv he hb
      exact ⟨h.1, fun r hr => ⟨(h.2 r hr).1, (h.2 r hr).2.1⟩⟩
  | false =>
      cases e with
      | cropComplete displayed crop =>
          obtain ⟨hLim, hLe, hPos, hImg⟩ := hInv
          constructor
          · simp only [step, handleCropComplete]
            split
            · exact ⟨hLim, hLe, hPos, hImg⟩
            · split
              · exact ⟨hLim, hLe, hPos, hImg⟩
              · exact ⟨hLim, hLe, hPos, hImg⟩
          · intro r hr
            simp only [step, handleCropComplete] at hr
            split at hr
            · simp at hr
            · split at hr
              · simp at hr
              · simp [optionsFromState] at hr
                subst hr
                exact ⟨hPos, hLe⟩
      | upload f => simp [sourceEpochEvent] at hs
      | statsArrive v => simp [sourceEpochEvent] at hs
      | qualityChange v => simp [sameSourceEvent] at he
      | maxWidthChange v => simp [sameSourceEvent] at he
      | colorCountChange v => simp [sameSourceEvent] at he
      | styleToggle b => simp [sameSourceEvent] at he
      | blurToggle b => simp [sameSourceEvent] at he
      | rotate => simp [sameSourceEvent] at he

theorem runEvents_maxWidthBound (w : Nat) (s : OptimizerState)
    (hInv : MaxWidthInv w s) (es : List UIEvent)
    (hes : ∀ e ∈ es,
        sourceEpochEvent e = true ∧ eventRespectsSliderBounds e = true) :
    MaxWidthInv w (runEvents s es).1 ∧
    ∀ r ∈ (runEvents s es).2,
      0 < r.opts.maxWidth ∧ r.opts.maxWidth ≤ w := by
  induction es generalizing s with
  | nil => exact ⟨hInv, by simp [runEvents]⟩
  | cons e es ih =>
      have he := hes e (by simp)
      have hstep := step_maxWidthBound w s e hInv he.1 he.2
      have hrest := ih (step s e).1 hstep.1
        (fun e' he' => hes e' (List.mem_cons_of_mem e he'))
      constructor
      · exact hrest.1
      · intro r hr
        simp only [runEvents, List.mem_append] at hr
        cases hr with
        | inl h => exact hstep.2 r h
        | inr h => exact hrest.2 r h

/-- C5 amended: the claim fails for the runs that hand a new file to the
pipeline — the upload-time run passes the default `maxWidth` (1920) even
for a narrower source, and the crop-completion run passes the stored
`maxWidth` with the freshly cropped, possibly narrower, file.  Once the
maxWidth-clamp effect has synchronized with the loaded source, every run
of that source epoch (slider moves, toggles, rotation, crop completion)
passes a positive `maxWidth` no greater than the loaded source's width,
and the slider, toggle and rotation runs pass the loaded source itself,
so their `maxWidth` is no greater than their own image's width — the
clamping happening in the handlers at the boundary, not inside a pipeline
stage. -/
theorem maxWidth_clamped_after_stats_sync :
    (∀ (s : OptimizerState) (img : ImageFile), s.originalImage = some img →
        0 < img.width → 0 < s.maxWidth →
        MaxWidthInv img.width (step s (UIEvent.statsArrive img.width)).1) ∧
    (∀ (w : Nat) (s : OptimizerState), MaxWidthInv w s →
        ∀ (es : List UIEvent),
          (∀ e ∈ es,
              sourceEpochEvent e = true ∧
              eventRespectsSliderBounds e = true) →
          ∀ r ∈ (runEvents s es).2,
            0 < r.opts.maxWidth ∧ r.opts.maxWidth ≤ w) ∧
    (∀ (w : Nat) (s : OptimizerState), MaxWidthInv w s →
        ∀ (es : List UIEvent),
          (∀ e ∈ es,
              sameSourceEvent e = true ∧
              eventRespectsSliderBounds e = true) →
          ∀ r ∈ (runEvents s es).2,
            r.image.width = w ∧ r.opts.maxWidth ≤ r.image.width) := by
  refine ⟨?_, ?_, ?_⟩
  · intro s img h hwpos hmpos
    simp only [step, maxWidthClampEffect]
    rw [if_pos (Nat.pos_iff_ne_zero.mp hwpos)]
    refine ⟨rfl, ?_, ?_, ?_⟩
    · dsimp only
      split <;> omega
    · dsimp only
      split <;> omega
    · rw [show ({ s with
          maxWidth := if s.maxWidth > img.width then img.width else s.maxWidth,
          maxWidthLimit := img.width } : OptimizerState).originalImage
          = s.originalImage from rfl, h]
      simp [Option.all]
  · intro w s hInv es hes
    exact (runEvents_maxWidthBound w s hInv es hes).2
  · intro w s hInv es hes r hr
    have h := (runEvents_maxWidthInv w s hInv es hes).2 r hr
    refine ⟨h.2.2, ?_⟩
    rw [h.2.2]
    exact h.2.1

/-- C5 witness: the clamp effect applied to a freshly uploaded
1000-pixel-wide source establishes the synchronized state; from the
synchronized state a crop-completion run passes `maxWidth` 1000, positive
and at most the source width; and a maxWidth slider move to 1300 emits a
request clamped to the width of the image it carries. -/
theorem maxWidth_clamped_after_stats_sync_witness :
    MaxWidthInv 1000
      (step { originalImage := some ⟨0, 1000, 800⟩ }
        (UIEvent.statsArrive 1000)).1 ∧
    (0 < ({ image := ⟨77, 100, 100⟩,
            opts := { quality := 75, maxWidth := 1000, applyStyle := true,
                      applyBlur := false, colorCount := 8 },
            timing := Timing.immediate } : Request).opts.maxWidth ∧
     ({ image := ⟨77, 100, 100⟩,
        opts := { quality := 75, maxWidth := 1000, applyStyle := true,
                  applyBlur := false, colorCount := 8 },
        timing := Timing.immediate } : Request).opts.maxWidth ≤ 1000) ∧
    (({ image := ⟨0, 1000, 800⟩,
        opts := { quality := 75, maxWidth := 1000, applyStyle := true,
                  applyBlur := false, colorCount := 8 },
        timing := Timing.debounced } : Request).image.width = 1000 ∧
     ({ image := ⟨0, 1000, 800⟩,
        opts := { quality := 75, maxWidth := 1000, applyStyle := true,
                  applyBlur := false, colorCount := 8 },
        timing := Timing.debounced } : Request).opts.maxWidth ≤
       ({ image := ⟨0, 1000, 800⟩,
          opts := { quality := 75, maxWidth := 1000, applyStyle := true,
                    applyBlur := false, colorCount := 8 },
          timing := Timing.debounced } : Request).image.width) :=
  ⟨maxWidth_clamped_after_stats_sync.1 { originalImage := some ⟨0, 1000, 800⟩ }
      ⟨0, 1000, 800⟩ rfl (by norm_num) (by norm_num),
   maxWidth_clamped_after_stats_sync.2.1 1000
     { maxWidth := 1000, maxWidthLimit := 1000,
       originalImage := some ⟨0, 1000, 800⟩ }
     ⟨rfl, by norm_num, by norm_num, rfl⟩
     [UIEvent.cropComplete ⟨1, 1000, 800⟩ ⟨0, 0, 100, 100⟩] (by decide)
     { image := ⟨77, 100, 100⟩,
       opts := { quality := 75, maxWidth := 1000, applyStyle := true,
                 applyBlur := false, colorCount := 8 },
       timing := Timing.immediate } (by decide),
   maxWidth_clamped_after_stats_sync.2.2 1000
     { maxWidth := 1000, maxWidthLimit := 1000,
       originalImage := some ⟨0, 1000, 800⟩ }
     ⟨rfl, by norm_num, by norm_num, rfl⟩
     [UIEvent.maxWidthChange 1300] (by decide)
     { image := ⟨0, 1000, 800⟩,
       opts := { quality := 75, maxWidth := 1000, applyStyle := true,
                 applyBlur := false, colorCount := 8 },
       timing := Timing.debounced } (by decide)⟩

/-- State property that `quality` and `colorCount` lie in the slider
ranges. -/
def ParamInv (s : OptimizerState) : Prop :=
  s.quality ≤ qualitySliderMax ∧ colorCountSliderMin ≤ s.colorCount ∧
  s.colorCount ≤ colorCountSliderMax

theorem step_paramInv (s : OptimizerState) (e : UIEvent) (hInv : ParamInv s)
    (hb : eventRespectsSliderBounds e = true) :
    ParamInv (step s e).1 ∧
    ∀ r ∈ (step s e).2,
      r.opts.quality ≤ qualitySliderMax ∧
      colorCountSliderMin ≤ r.opts.colorCount ∧
      r.opts.colorCount ≤ colorCountSliderMax := by
  obtain ⟨hq, hc2, hc32⟩ := hInv
  cases e with
  | qualityChange v =>
      have hv : qualitySliderMin ≤ v ∧ v ≤ qualitySliderMax := by
        simpa [eventRespectsSliderBounds] using hb
      refine ⟨⟨hv.2, hc2, hc32⟩, ?_⟩
      intro r hr
      simp only [step, handleQualityChange] at hr
      cases h : s.originalImage with
      | none => simp [debouncedProcessWithParams, h] at hr
      | some img =>
          simp [debouncedProcessWithParams, h, overrideOption,
            optionsFromState] at hr
          subst hr
          exact ⟨hv.2, hc2, hc32⟩
  | maxWidthChange v =>
      refine ⟨⟨hq, hc2, hc32⟩, ?_⟩
      intro r hr
      simp only [step, handleMaxWidthChange] at hr
      cases h : s.originalImage with
      | none => simp [debouncedProcessWithParams, h] at hr
      | some img =>
          simp [debouncedProcessWithParams, h, overrideOption,
            optionsFromState] at hr
          subst hr
          exact ⟨hq, hc2, hc32⟩
  | colorCountChange v =>
      have hv : colorCountSliderMin ≤ v ∧ v ≤ colorCountSliderMax := by
        simpa [eventRespectsSliderBounds] using hb
      refine ⟨⟨hq, hv.1, hv.2⟩, ?_⟩
      intro r hr
      simp only [step, handleColorCountChange] at hr
      cases h : s.originalImage with
      | none => simp [debouncedProcessWithParams, h] at hr
      | some img =>
          simp [debouncedProcessWithParams, h, overrideOption,
            optionsFromState] at hr
          subst hr
          exact ⟨hq, hv.1, hv.2⟩
  | styleToggle b =>
      refine ⟨⟨hq, hc2, hc32⟩, ?_⟩
      intro r hr
      simp only [step, handleStyleChange] at hr
      cases h : s.originalImage with
      | none => simp [h] at hr
      | some img =>
          simp [h] at hr
          subst hr
          exact ⟨hq, hc2, hc32⟩
  | blurToggle b =>
      refine ⟨⟨hq, hc2, hc32⟩, ?_⟩
      intro r hr
      simp only [step, handleBlurChange] at hr
      cases h : s.originalImage with
      | none => simp [h] at hr
      | some img =>
          simp [h] at hr
          subst hr
          exact ⟨hq, hc2, hc32⟩
  | rotate =>
      cases h : s.originalImage with
      | none =>
          refine ⟨?_, ?_⟩
          · simp only [step, handleRotation, h]
            exact ⟨hq, hc2, hc32⟩
          · intro r hr
            simp [step, handleRotation, h] at hr
      | some img =>
          refine ⟨?_, ?_⟩
          · simp only [step, handleRotation, h]
            exact ⟨hq, hc2, hc32⟩
          · intro r hr
            simp [step, handleRotation, h] at hr
            subst hr
            exact ⟨hq, hc2, hc32⟩
  | cropComplete displayed crop =>
      refine ⟨?_, ?_⟩
      · simp only [step, handleCropComplete]
        split
        · exact ⟨hq, hc2, hc32⟩
        · split
          · exact ⟨hq, hc2, hc32⟩
          · exact ⟨hq, hc2, hc32⟩
      · intro r hr
        simp only [step, handleCropComplete] at hr
        split at hr
        · simp at hr
        · split at hr
          · simp at hr
          · simp [optionsFromState] at hr
            subst hr
            exact ⟨hq, hc2, hc32⟩
  | upload f =>
      refine ⟨⟨hq, hc2, hc32⟩, ?_⟩
      intro r hr
      simp [step, handleImageUpload, optionsFromState] at hr
      subst hr
      exact ⟨hq, hc2, hc32⟩
  | statsArrive v =>
      refine ⟨?_, ?_⟩
      · simp only [step, maxWidthClampEffect]
        split
        · exact ⟨hq, hc2, hc32⟩
        · exact ⟨hq, hc2, hc32⟩
      · intro r hr
        simp [step] at hr

theorem runEvents_paramInv (s : OptimizerState) (hInv : ParamInv s)
    (es : List UIEvent)
    (hes : ∀ e ∈ es, eventRespectsSliderBounds e = true) :
    ParamInv (runEvents s es).1 ∧
    ∀ r ∈ (runEvents s es).2,
      r.opts.quality ≤ qualitySliderMax ∧
      colorCountSliderMin ≤ r.opts.colorCount ∧
      r.opts.colorCount ≤ colorCountSliderMax := by
  induction es generalizing s with
  | nil => exact ⟨hInv, by simp [runEvents]⟩
  | cons e es ih =>
      have hstep := step_paramInv s e hInv (hes e (by simp))
      have hrest := ih (step s e).1 hstep.1
        (fun e' he' => hes e' (List.mem_cons_of_mem e he'))
      constructor
      · exact hrest.1
      · intro r hr
        simp only [runEvents, List.mem_append] at hr
        cases hr with
        | inl h => exact hstep.2 r h
        | inr h => exact hrest.2 r h

/-- C10: the `quality` and `colorCount` state starts in range (75 and 8),
the rendered sliders are the only mutators and are bounded 0–100 and 2–32
(the `DitheringControls` slider has the same 2–32 bounds), so every
UI-triggered `processImage` call receives `quality` in 0–100 and
`colorCount` in 2–32. -/
theorem quality_colorCount_within_range :
    ({} : OptimizerState).quality = 75 ∧
    ({} : OptimizerState).colorCount = 8 ∧
    ParamInv {} ∧
    qualitySliderMin = 0 ∧ qualitySliderMax = 100 ∧
    colorCountSliderMin = 2 ∧ colorCountSliderMax = 32 ∧
    ditheringColorCountSliderMin = colorCountSliderMin ∧
    ditheringColorCountSliderMax = colorCountSliderMax ∧
    (∀ (s : OptimizerState), ParamInv s → ∀ (es : List UIEvent),
        (∀ e ∈ es, eventRespectsSliderBounds e = true) →
        ParamInv (runEvents s es).1 ∧
        ∀ r ∈ (runEvents s es).2,
          r.opts.quality ≤ qualitySliderMax ∧
          colorCountSliderMin ≤ r.opts.colorCount ∧
          r.opts.colorCount ≤ colorCountSliderMax) := by
  refine ⟨rfl, rfl, ⟨by norm_num [qualitySliderMax],
    by norm_num [colorCountSliderMin], by norm_num [colorCountSliderMax]⟩,
    rfl, rfl, rfl, rfl, rfl, rfl, ?_⟩
  intro s hInv es hes
  exact runEvents_paramInv s hInv es hes

/-- C10 witness: from the initial state, uploading a file and dragging the
quality slider to 0 and the colorCount slider to 32 yields requests with
quality and colorCount in range; instantiated at the final debounced
request. -/
theorem quality_colorCount_within_range_witness :
    ({ image := ⟨0, 640, 480⟩,
       opts := { quality := 75, maxWidth := 1920, applyStyle := true,
                 applyBlur := false, colorCount := 32 },
       timing := Timing.debounced } : Request).opts.quality
        ≤ qualitySliderMax ∧
    colorCountSliderMin ≤
      ({ image := ⟨0, 640, 480⟩,
         opts := { quality := 75, maxWidth := 1920, applyStyle := true,
                   applyBlur := false, colorCount := 32 },
         timing := Timing.debounced } : Request).opts.colorCount ∧
    ({ image := ⟨0, 640, 480⟩,
       opts := { quality := 75, maxWidth := 1920, applyStyle := true,
                 applyBlur := false, colorCount := 32 },
       timing := Timing.debounced } : Request).opts.colorCount
        ≤ colorCountSliderMax :=
  (quality_colorCount_within_range.2.2.2.2.2.2.2.2.2 {}
      ⟨by norm_num [qualitySliderMax], by norm_num [colorCountSliderMin],
       by norm_num [colorCountSliderMax]⟩
      [UIEvent.upload ⟨0, 640, 480⟩, UIEvent.colorCountChange 32]
      (by decide)).2
    { image := ⟨0, 640, 480⟩,
      opts := { quality := 75, maxWidth := 1920, applyStyle := true,
                applyBlur := false, colorCount := 32 },
      timing := Timing.debounced } (by decide)

/-- C7: rotation happens only in 90-degree steps — from a rotation state in
the set 0/90/180/270 the rotation handler's update stays in that set and
four successive updates return to the original state — and applying the
modelled 90-degree rotation four times returns the image with its original
width, height and content. -/
theorem rotation_four_times_identity (img : FnImage) (r : Nat)
    (hr : r < 360) (h90 : r % 90 = 0) :
    rotate90 (rotate90 (rotate90 (rotate90 img))) = img ∧
    (rotate90 img).width = img.height ∧
    (rotate90 img).height = img.width ∧
    nextRotation (nextRotation (nextRotation (nextRotation r))) = r ∧
    (nextRotation r = 0 ∨ nextRotation r = 90 ∨ nextRotation r = 180 ∨
        nextRotation r = 270) := by
  refine ⟨?_, rfl, rfl, ?_, ?_⟩
  · cases img with
    | mk w h p =>
        simp only [rotate90, FnImage.mk.injEq, true_and]
        funext x y
        congr 1 <;> omega
  · simp only [nextRotation]
    omega
  · simp only [nextRotation]
    omega

/-- C7 witness: the rotation theorem applied to a concrete 2-by-3 image and
the concrete rotation state 270. -/
theorem rotation_four_times_identity_witness :
    270 < 360 ∧ 270 % 90 = 0 ∧
    (rotate90 (rotate90 (rotate90 (rotate90
        ⟨2, 3, fun _ _ => ⟨0, 0, 0, 255⟩⟩))) =
        (⟨2, 3, fun _ _ => ⟨0, 0, 0, 255⟩⟩ : FnImage) ∧
     (rotate90 (⟨2, 3, fun _ _ => ⟨0, 0, 0, 255⟩⟩ : FnImage)).width = 3 ∧
     (rotate90 (⟨2, 3, fun _ _ => ⟨0, 0, 0, 255⟩⟩ : FnImage)).height = 2 ∧
     nextRotation (nextRotation (nextRotation (nextRotation 270))) = 270 ∧
     (nextRotation 270 = 0 ∨ nextRotation 270 = 90 ∨ nextRotation 270 = 180 ∨
         nextRotation 270 = 270)) :=
  ⟨by norm_num, by norm_num,
   rotation_four_times_identity ⟨2, 3, fun _ _ => ⟨0, 0, 0, 255⟩⟩ 270
     (by norm_num) (by norm_num)⟩

theorem debounceFires_withinWindow (delay : Nat) (es : List (Nat × α))
    (h : withinWindow delay es = true) :
    debounceFires delay es = (lastCall es).toList := by
  induction es with
  | nil => simp [debounceFires, lastCall]
  | cons e es ih =>
      cases es with
      | nil => simp [debounceFires, lastCall]
      | cons e2 rest =>
          simp only [withinWindow, Bool.and_eq_true, decide_eq_true_eq] at h
          simp only [debounceFires, lastCall]
          rw [if_pos h.1]
          exact ih h.2

/-- C4: slider moves go through the 500 ms debounce — a burst of calls that
all fall inside one quiescence window fires exactly the last call — while
dithering and face-blur toggles, rotation, crop completion and upload
request processing immediately, without debounce. -/
theorem debounce_discipline :
    debounceDelay = 500 ∧
    (∀ (es : List (Nat × Nat)), withinWindow debounceDelay es = true →
        debounceFires debounceDelay es = (lastCall es).toList) ∧
    (∀ (s : OptimizerState) (e : UIEvent), ∀ r ∈ (step s e).2,
        r.timing = if isSliderEvent e then Timing.debounced
                   else Timing.immediate) := by
  refine ⟨rfl, fun es h => debounceFires_withinWindow debounceDelay es h, ?_⟩
  intro s e r hr
  cases e with
  | qualityChange v =>
      cases h : s.originalImage <;>
        simp_all [step, handleQualityChange, debouncedProcessWithParams,
          isSliderEvent]
  | maxWidthChange v =>
      cases h : s.originalImage <;>
        simp_all [step, handleMaxWidthChange, debouncedProcessWithParams,
          isSliderEvent]
  | colorCountChange v =>
      cases h : s.originalImage <;>
        simp_all [step, handleColorCountChange, debouncedProcessWithParams,
          isSliderEvent]
  | styleToggle b =>
      cases h : s.originalImage <;>
        simp_all [step, handleStyleChange, isSliderEvent]
  | blurToggle b =>
      cases h : s.originalImage <;>
        simp_all [step, handleBlurChange, isSliderEvent]
  | rotate =>
      cases h : s.originalImage <;>
        simp_all [step, handleRotation, isSliderEvent]
  | cropComplete displayed crop =>
      simp only [step, handleCropComplete] at hr
      split at hr
      · simp at hr
      · split at hr <;> simp_all [isSliderEvent]
  | upload f => simp_all [step, handleImageUpload, isSliderEvent]
  | statsArrive w => simp_all [step]

/-- C4 witness: a three-call burst inside one 500 ms window fires only the
last call, and a concrete quality-slider request is debounced. -/
theorem debounce_discipline_witness :
    debounceFires debounceDelay [(0, 10), (100, 20), (300, 30)]
        = (lastCall [(0, 10), (100, 20), (300, 30)]).toList ∧
    ({ image := ⟨0, 640, 480⟩,
       opts := { quality := 50, maxWidth := 1920, applyStyle := true,
                 applyBlur := false, colorCount := 8 },
       timing := Timing.debounced } : Request).timing
      = (if isSliderEvent (UIEvent.qualityChange 50) then Timing.debounced
         else Timing.immediate) :=
  ⟨debounce_discipline.2.1 [(0, 10), (100, 20), (300, 30)] (by decide),
   debounce_discipline.2.2 { originalImage := some ⟨0, 640, 480⟩ }
     (UIEvent.qualityChange 50)
     { image := ⟨0, 640, 480⟩,
       opts := { quality := 50, maxWidth := 1920, applyStyle := true,
                 applyBlur := false, colorCount := 8 },
       timing := Timing.debounced } (by decide)⟩

/-- C1: issuing request A and then request B before A completes delivers
exactly one `PipelineResult`, the one computed from B's options; A's result
and A's further progress events are never observable by the caller — in
both completion orders (A finishing after B, and B finishing before A). -/
theorem supersession_delivers_only_latest (oA oB : ProcessingOptions) :
    (orchRun {} [OrchEvent.issue oA, OrchEvent.issue oB,
        OrchEvent.progress 0 50, OrchEvent.complete 0,
        OrchEvent.complete 1]).2 = [Deliverable.resultEvt ⟨oB⟩] ∧
    (orchRun {} [OrchEvent.issue oA, OrchEvent.issue oB,
        OrchEvent.progress 0 50, OrchEvent.complete 1,
        OrchEvent.complete 0]).2 = [Deliverable.resultEvt ⟨oB⟩] :=
  ⟨rfl, rfl⟩

/-- C5 counterexample: runs that hand a new file to the pipeline violate
the claim.  Uploading an 800-pixel-wide image passes the default
`maxWidth` of 1920, which exceeds the source width; and even from a state
synchronized to a 1000-pixel-wide source, completing a 100-pixel-wide crop
passes the stored `maxWidth` of 1000 with the 100-pixel-wide cropped
file. -/
theorem maxWidth_exceeds_source_at_upload_and_crop :
    ((step {} (UIEvent.upload ⟨0, 800, 600⟩)).2.map
        (fun r => r.opts.maxWidth) = [1920] ∧
     (step {} (UIEvent.upload ⟨0, 800, 600⟩)).2.map
        (fun r => r.image.width) = [800] ∧
     800 < 1920) ∧
    ((step { maxWidth := 1000, maxWidthLimit := 1000,
             originalImage := some ⟨0, 1000, 800⟩ }
        (UIEvent.cropComplete ⟨1, 1000, 800⟩ ⟨0, 0, 100, 100⟩)).2.map
        (fun r => r.opts.maxWidth) = [1000] ∧
     (step { maxWidth := 1000, maxWidthLimit := 1000,
             originalImage := some ⟨0, 1000, 800⟩ }
        (UIEvent.cropComplete ⟨1, 1000, 800⟩ ⟨0, 0, 100, 100⟩)).2.map
        (fun r => r.image.width) = [100] ∧
     100 < 1000) :=
  ⟨⟨rfl, rfl, by norm_num⟩, ⟨by decide, by decide, by norm_num⟩⟩

/-- Crop rectangle lying outside the bounds of an image: negative origin,
or extent past the right or bottom edge. -/
def cropOutOfBounds (image : ImageFile) (crop : CropRect) : Prop :=
  crop.x < 0 ∨ crop.y < 0 ∨ (image.width : Int) < crop.x + crop.w ∨
  (image.height : Int) < crop.y + crop.h

/-- C6: for every image, every component state and every crop rectangle
lying outside the image bounds (for example one with `x = -10`), the crop
stage fails with the typed error `InvalidRegion`, and the crop handler
delivers no processing request, so no result reaches the caller. -/
theorem out_of_bounds_crop_fails_invalid_region (img : ImageFile)
    (s : OptimizerState) (crop : CropRect) (h : cropOutOfBounds img crop) :
    getCroppedImg img crop s.quality
        = Except.error PipelineError.InvalidRegion ∧
    (step s (UIEvent.cropComplete img crop)).2 = [] := by
  have hcond : crop.w ≤ 0 ∨ crop.h ≤ 0 ∨ crop.x < 0 ∨ crop.y < 0 ∨
      (img.width : Int) < crop.x + crop.w ∨
      (img.height : Int) < crop.y + crop.h := by
    rcases h with h | h | h | h <;> tauto
  have hget : getCroppedImg img crop s.quality
      = Except.error PipelineError.InvalidRegion := by
    simp only [getCroppedImg]
    rw [if_pos hcond]
  refine ⟨hget, ?_⟩
  simp only [step, handleCropComplete]
  split
  · rfl
  · rw [hget]

/-- C6 witness: the general out-of-bounds theorem applied to the concrete
rectangle with `x = -10` of the claim, on an 800-by-600 image. -/
theorem out_of_bounds_crop_fails_invalid_region_witness :
    cropOutOfBounds ⟨0, 800, 600⟩ ⟨-10, 0, 100, 100⟩ ∧
    (getCroppedImg ⟨0, 800, 600⟩ ⟨-10, 0, 100, 100⟩
        ({} : OptimizerState).quality
        = Except.error PipelineError.InvalidRegion ∧
     (step {} (UIEvent.cropComplete ⟨0, 800, 600⟩ ⟨-10, 0, 100, 100⟩)).2
        = []) :=
  ⟨by simp [cropOutOfBounds],
   out_of_bounds_crop_fails_invalid_region ⟨0, 800, 600⟩ {}
     ⟨-10, 0, 100, 100⟩ (by simp [cropOutOfBounds])⟩

/-- C8: every `processImage` request emitted by a handler other than
`handleRotation` carries no `rotation` key, so after the user has rotated,
a later quality, maxWidth, colorCount, dithering or face-blur change (or
crop, or upload) reprocesses with the rotation absent; only the rotation
handler's request carries the (new) rotation. -/
theorem rotation_absent_outside_handleRotation (s : OptimizerState)
    (e : UIEvent) :
    (e ≠ UIEvent.rotate → ∀ r ∈ (step s e).2, r.opts.rotation = none) ∧
    (∀ r ∈ (step s UIEvent.rotate).2,
        r.opts.rotation = some (nextRotation s.rotation)) := by
  constructor
  · intro hne r hr
    cases e with
    | qualityChange v =>
        cases h : s.originalImage <;>
          simp_all [step, handleQualityChange, debouncedProcessWithParams,
            overrideOption, optionsFromState]
    | maxWidthChange v =>
        cases h : s.originalImage <;>
          simp_all [step, handleMaxWidthChange, debouncedProcessWithParams,
            overrideOption, optionsFromState]
    | colorCountChange v =>
        cases h : s.originalImage <;>
          simp_all [step, handleColorCountChange, debouncedProcessWithParams,
            overrideOption, optionsFromState]
    | styleToggle b =>
        cases h : s.originalImage <;> simp_all [step, handleStyleChange]
    | blurToggle b =>
        cases h : s.originalImage <;> simp_all [step, handleBlurChange]
    | rotate => exact absurd rfl hne
    | cropComplete displayed crop =>
        simp only [step, handleCropComplete] at hr
        split at hr
        · simp at hr
        · split at hr <;> simp_all [optionsFromState]
    | upload f => simp_all [step, handleImageUpload, optionsFromState]
    | statsArrive w => simp_all [step]
  · intro r hr
    cases h : s.originalImage <;> simp_all [step, handleRotation]

/-- C9: completing a crop never updates the `originalImage` state, so a
subsequent parameter-change-triggered run still passes the original,
uncropped image to `processImage`. -/
theorem crop_never_persisted (s : OptimizerState) (displayed : ImageFile)
    (crop : CropRect) (orig : ImageFile) (h : s.originalImage = some orig) :
    (step s (UIEvent.cropComplete displayed crop)).1.originalImage
        = some orig ∧
    ∀ v r, r ∈ (step (step s (UIEvent.cropComplete displayed crop)).1
        (UIEvent.qualityChange v)).2 → r.image = orig := by
  have hOrig : (step s (UIEvent.cropComplete displayed crop)).1.originalImage
      = some orig := by
    simp only [step, handleCropComplete]
    split
    · exact h
    · split <;> simp [h]
  refine ⟨hOrig, ?_⟩
  intro v r hr
  simp only [step, handleQualityChange, debouncedProcessWithParams] at hr
  simp only [step] at hOrig
  rw [hOrig] at hr
  simp at hr
  simp [hr]

/-- C9 witness: on a concrete state holding the original image (0, 640x480),
completing a concrete crop of the displayed image and then changing the
quality slider to 50 yields a request that still carries the original image. -/
theorem crop_never_persisted_witness :
    (step { originalImage := some ⟨0, 640, 480⟩ }
        (UIEvent.cropComplete ⟨5, 320, 240⟩ ⟨0, 0, 100, 100⟩)).1.originalImage
        = some ⟨0, 640, 480⟩ ∧
    ({ image := ⟨0, 640, 480⟩,
       opts := { quality := 50, maxWidth := 1920, applyStyle := true,
                 applyBlur := false, colorCount := 8 },
       timing := Timing.debounced } : Request).image = ⟨0, 640, 480⟩ :=
  ⟨(crop_never_persisted { originalImage := some ⟨0, 640, 480⟩ } ⟨5, 320, 240⟩
      ⟨0, 0, 100, 100⟩ ⟨0, 640, 480⟩ rfl).1,
   (crop_never_persisted { originalImage := some ⟨0, 640, 480⟩ } ⟨5, 320, 240⟩
      ⟨0, 0, 100, 100⟩ ⟨0, 640, 480⟩ rfl).2 50
     { image := ⟨0, 640, 480⟩,
       opts := { quality := 50, maxWidth := 1920, applyStyle := true,
                 applyBlur := false, colorCount := 8 },
       timing := Timing.debounced } (by decide)⟩

/-- C8 witness: on a rotated state (rotation 90), the request emitted by a
quality change to 50 carries no rotation key. -/
theorem rotation_absent_outside_handleRotation_witness :
    ({ image := ⟨0, 640, 480⟩,
       opts := { quality := 50, maxWidth := 1920, applyStyle := true,
                 applyBlur := false, colorCount := 8 },
       timing := Timing.debounced } : Request).opts.rotation = none :=
  (rotation_absent_outside_handleRotation
      { rotation := 90, originalImage := some ⟨0, 640, 480⟩ }
      (UIEvent.qualityChange 50)).1 (by decide)
    { image := ⟨0, 640, 480⟩,
      opts := { quality := 50, maxWidth := 1920, applyStyle := true,
                applyBlur := false, colorCount := 8 },
      timing := Timing.debounced } (by decide)

end ImageEcolo
